import Mathlib

/-!
Shallow embedding of `src/soopervisor/abc.py` (the exporter-protocol module):
the configuration schema, the YAML config-store bootstrap
(`_write_hints_if_needed`), the loading classmethod (`load_env_from_config`),
and the exporter entry point (`AbstractExporter.add`).

File contents are modelled as lists of characters; the config filesystem is a
map from path to optional file content; the directory filesystem used by
`add()` maps a name to the kind of entry present.  Python dictionaries are
modelled as association lists with Python's `{**a, **b}` merge and
`d[k] = v` assignment semantics.
-/

namespace Soopervisor

/-! ## Text model -/

/-- File content: a sequence of characters (Python `str`). -/
abbrev Text := List Char

/-- Split a text into its lines at newline characters (as Python/YAML line
structure; a trailing newline yields a final empty line). -/
def splitLines : Text → List Text
  | [] => [[]]
  | c :: rest =>
    if c = '\n' then [] :: splitLines rest
    else
      match splitLines rest with
      | [] => [[c]]
      | l :: ls => (c :: l) :: ls

/-- Join lines, terminating each with a newline (the shape produced by
`yaml.safe_dump`, whose output ends every line with a newline). -/
def joinLines (ls : List Text) : Text :=
  ls.flatMap (fun l => l ++ ['\n'])

/-- Whether a line introduces a top-level YAML mapping key: it is nonempty,
not indented, not a comment, and carries a colon.  Modelled from the spec:
the Config Store read "parses the full document into a mapping" whose keys
are the top-level section names; `read_yaml_mapping` itself lives in
`soopervisor/_io.py`, which is not under `src/`. -/
def isSectionLine : Text → Bool
  | [] => false
  | c :: rest => c ≠ ' ' && c ≠ '#' && (c :: rest).contains ':'

/-- The key introduced by a top-level mapping line: the text before the
first colon. -/
def sectionKeyOfLine (l : Text) : Text :=
  l.takeWhile (fun c => c ≠ ':')

/-- Modelled from the spec: `list(read_yaml_mapping(path_to_config))`
(abc.py line 115) — the list of top-level section names of the document.
`read_yaml_mapping` is in `soopervisor/_io.py`, absent from `src/`; the spec
says it parses the full document into a mapping, one key per environment
section. -/
def topLevelKeys (t : Text) : List Text :=
  ((splitLines t).filter isSectionLine).map sectionKeyOfLine

/-! ## Python dict model (ordered association lists) -/

/-- A Python dict with string keys and rendered scalar values
(values are kept in their rendered form; the claims under proof never
inspect value rendering). -/
abbrev PyDict := List (String × String)

/-- Python `d[k] = v`: replace the value in place if the key exists,
otherwise append the pair at the end. -/
def dictSet (d : PyDict) (k v : String) : PyDict :=
  if (d.lookup k).isSome then
    d.map (fun kv => if kv.1 = k then (k, v) else kv)
  else d ++ [(k, v)]

/-- Python `{**a, **b}`: the keys of `a` in order (values overridden by `b`
where present), followed by the keys of `b` that are not in `a`. -/
def pyMerge (a b : PyDict) : PyDict :=
  a.map (fun kv =>
    match b.lookup kv.1 with
    | some v => (kv.1, v)
    | Option.none => kv)
  ++ b.filter (fun kv => (a.lookup kv.1).isNone)

/-- Python truthiness of an optional string (`if preset:`):
true exactly for a present, non-empty string. -/
def pyTruthyOptStr : Option String → Bool
  | Option.none => false
  | some s => !s.isEmpty

/-! ## AbstractConfig.hints and the bootstrap write -/

/-- `AbstractConfig.hints` (abc.py lines 145-154): take the backend's
`_hints()` mapping and assign `data['backend'] = cls.get_backend_value()`.
Parameterized by the concrete backend's raw hints and backend identifier. -/
def hints (hintsRaw : PyDict) (backendValue : String) : PyDict :=
  dictSet hintsRaw "backend" backendValue

/-- abc.py line 98: `data = {**cls.hints(), **defaults}` — the hint data
merged with the caller-supplied overrides, overrides taking precedence. -/
def hints_with_overrides (hintsRaw : PyDict) (backendValue : String)
    (defaults : PyDict) : PyDict :=
  pyMerge (hints hintsRaw backendValue) defaults

/-- abc.py lines 98-101: the data stored in a freshly created section —
hints merged with overrides, plus `preset` when the preset argument is
truthy. -/
def build_section_data (hintsRaw : PyDict) (backendValue : String)
    (defaults : PyDict) (preset : Option String) : PyDict :=
  let data := hints_with_overrides hintsRaw backendValue defaults
  if pyTruthyOptStr preset then dictSet data "preset" (preset.getD "") else data

/-- Modelled from the spec: `yaml.safe_dump({env_name: data},
default_flow_style=None)` (abc.py lines 104-105) for a section whose values
are rendered scalars — the header line `env_name:` followed by one
two-space-indented `key: value` line per entry. -/
def dumpLines (env_name : String) (data : PyDict) : List Text :=
  (env_name.data ++ [':'])
    :: data.map (fun kv => ' ' :: ' ' :: (kv.1.data ++ ':' :: ' ' :: kv.2.data))

/-- The serialized new-section block (`default_data` in the source). -/
def safe_dump_section (env_name : String) (data : PyDict) : Text :=
  joinLines (dumpLines env_name data)

/-- The config-file filesystem: path to optional file content. -/
abbrev CFS := String → Option Text

/-- Write a file at a path (`Path(...).write_text`). -/
def fsWrite (fs : CFS) (path : String) (t : Text) : CFS :=
  fun q => if q = path then some t else fs q

/-- `AbstractConfig._write_hints_if_needed` (abc.py lines 77-121): serialize
the section data; if the config file does not exist, create it with that
block; otherwise append the block to the existing text only when the target
section name is not among the document's section names. -/
def write_hints_if_needed (fs : CFS) (path_to_config env_name : String)
    (preset : Option String) (hintsRaw : PyDict) (backendValue : String)
    (defaults : PyDict) : CFS :=
  let data := build_section_data hintsRaw backendValue defaults preset
  let default_data := safe_dump_section env_name data
  match fs path_to_config with
  | Option.none => fsWrite fs path_to_config default_data
  | some content =>
    let env_names := topLevelKeys content
    if env_name.data ∈ env_names then fs
    else fsWrite fs path_to_config (content ++ '\n' :: (default_data ++ ['\n']))

/-- The list of section names of the document at a path ([] if the file
does not exist). -/
def docSections (fs : CFS) (path : String) : List Text :=
  match fs path with
  | some t => topLevelKeys t
  | Option.none => []

/-! ## YAML values and the parsed document -/

/-- A parsed YAML value, as produced by `yaml.safe_load` for the shapes the
module handles. -/
inductive YVal where
  | str (s : String)
  | int (n : Int)
  | null
  | list (xs : List YVal)
  | map (entries : List (String × YVal))

/-- Python `type(v).__name__` for a parsed YAML value (used in the
type-mismatch message of abc.py lines 53-54). -/
def YVal.typeName : YVal → String
  | .str _ => "str"
  | .int _ => "int"
  | .null => "NoneType"
  | .list _ => "list"
  | .map _ => "dict"

/-- A parsed YAML document: the top-level mapping. -/
abbrev YDoc := List (String × YVal)

/-- Python `actual != expected` at abc.py line 67, where `expected` is the
backend identifier string: equality holds only for an equal YAML string. -/
def YVal.eqStr : YVal → String → Bool
  | .str s, t => s == t
  | _, _ => false

/-! ## Schema construction (pydantic model with `extra = 'forbid'`) -/

/-- Errors raised at schema construction. Modelled from the spec:
pydantic's validation ("unknown fields are rejected at construction
(strict schema — extra keys are an error, not ignored)"; declared fields
are all optional). -/
inductive SchemaError where
  | extraFields (names : List String)
  | typeError (field : String) (actualType : String)
deriving DecidableEq

/-- `AbstractDockerConfig` (abc.py lines 157-170): `preset`, `include`,
`exclude`, `repository`, all optional with default `None`. -/
structure AbstractDockerConfig where
  preset : Option String := Option.none
  «include» : Option (List String) := Option.none
  exclude : Option (List String) := Option.none
  repository : Option String := Option.none
deriving DecidableEq

/-- The declared field set of `AbstractDockerConfig` (the base
`AbstractConfig` contributes `preset`; the Docker subclass adds `include`,
`exclude`, `repository`). -/
def dockerFieldNames : List String :=
  ["preset", "include", "exclude", "repository"]

/-- Validate one optional-string field (`Optional[str]`). -/
def coerceStrOpt (field : String) : Option YVal → Except SchemaError (Option String)
  | Option.none => .ok Option.none
  | some (.str s) => .ok (some s)
  | some .null => .ok Option.none
  | some v => .error (.typeError field v.typeName)

/-- Validate every element of a YAML sequence as a string. -/
def coerceStrList (field : String) : List YVal → Except SchemaError (List String)
  | [] => .ok []
  | .str s :: vs => (coerceStrList field vs).map (fun ss => s :: ss)
  | v :: _ => .error (.typeError field v.typeName)

/-- Validate one optional-string-list field (`Optional[List[str]]`). -/
def coerceStrListOpt (field : String) :
    Option YVal → Except SchemaError (Option (List String))
  | Option.none => .ok Option.none
  | some .null => .ok Option.none
  | some (.list xs) => (coerceStrList field xs).map some
  | some v => .error (.typeError field v.typeName)

/-- `cls(**data[env_name])` for `AbstractDockerConfig` — strict pydantic
construction: any key outside the declared field set is an error; otherwise
each declared field is validated and absent fields default to `None`. -/
def mkDockerConfig (entries : YDoc) : Except SchemaError AbstractDockerConfig :=
  let extras := entries.filter (fun kv => !(dockerFieldNames.contains kv.1))
  if extras.isEmpty then
    match coerceStrOpt "preset" (entries.lookup "preset"),
        coerceStrListOpt "include" (entries.lookup "include"),
        coerceStrListOpt "exclude" (entries.lookup "exclude"),
        coerceStrOpt "repository" (entries.lookup "repository") with
    | .ok p, .ok inc, .ok exc, .ok repo => .ok ⟨p, inc, exc, repo⟩
    | .error e, _, _, _ => .error e
    | _, .error e, _, _ => .error e
    | _, _, .error e, _ => .error e
    | _, _, _, .error e => .error e
  else .error (.extraFields (extras.map (fun kv => kv.1)))

/-! ## load_env_from_config -/

/-- The failures `load_env_from_config` can raise, with the data each
message names. -/
inductive LoadError where
  /-- The read step itself failed. -/
  | readError (msg : String)
  /-- Python `KeyError`: `data[env_name]` with the key absent. -/
  | keyError (key : String)
  /-- `TypeError` of abc.py lines 52-54, naming the environment and the
  actual type found. -/
  | typeMismatch (env_name : String) (actualType : String)
  /-- `ClickException` of abc.py lines 58-62, naming the environment and
  the file path. -/
  | missingBackend (env_name : String) (path_to_config : String)
  /-- `ClickException` of abc.py lines 67-71, reporting expected and
  actual backend values. -/
  | backendMismatch (env_name : String) (path_to_config : String)
      (expected : String) (actual : YVal)
  /-- pydantic `ValidationError` from the final construction. -/
  | schemaError (e : SchemaError)

/-- Python `del d['backend']`. -/
def removeKey (entries : YDoc) (k : String) : YDoc :=
  entries.filter (fun kv => kv.1 ≠ k)

/-- abc.py lines 49-75, after the bootstrap write: take the result of the
`read_yaml_mapping()` call and run the section checks in source order —
`data[env_name]` (a `KeyError` if absent), the `Mapping` type check, the
`backend`-presence check, the backend-equality check, then construction
with the `backend` key removed. -/
def check_and_construct (read_result : Except String YDoc)
    (env_name path_to_config backendValue : String) :
    Except LoadError AbstractDockerConfig :=
  match read_result with
  | .error e => .error (.readError e)
  | .ok data =>
    match data.lookup env_name with
    | Option.none => .error (.keyError env_name)
    | some sectionVal =>
      match sectionVal with
      | .map entries =>
        match entries.lookup "backend" with
        | Option.none => .error (.missingBackend env_name path_to_config)
        | some actual =>
          if actual.eqStr backendValue then
            (mkDockerConfig (removeKey entries "backend")).mapError .schemaError
          else
            .error (.backendMismatch env_name path_to_config backendValue actual)
      | _ => .error (.typeMismatch env_name sectionVal.typeName)

/-- `AbstractConfig.load_env_from_config` (abc.py lines 34-75): run the
bootstrap write, then read and validate.  The read at abc.py line 49 is
`read_yaml_mapping()` with no argument: `read_yaml_mapping` lives in
`soopervisor/_io.py`, which is not under `src/`, and the source passes it
no path here (unlike line 115), so the read is modelled as an arbitrary
function `read_no_arg` of the filesystem alone — it cannot observe
`path_to_config`. -/
def load_env_from_config (read_no_arg : CFS → Except String YDoc)
    (fs : CFS) (path_to_config env_name : String) (preset : Option String)
    (hintsRaw : PyDict) (backendValue : String) (defaults : PyDict) :
    CFS × Except LoadError AbstractDockerConfig :=
  let fs1 := write_hints_if_needed fs path_to_config env_name preset
    hintsRaw backendValue defaults
  (fs1, check_and_construct (read_no_arg fs1) env_name path_to_config backendValue)

/-! ## AbstractExporter.add -/

/-- A filesystem entry kind, as distinguished by `Path.is_file()`. -/
inductive FsEntry where
  | file
  | directory
deriving DecidableEq

/-- The working-directory filesystem `add()` checks: a name maps to the
kind of entry present, if any. -/
abbrev DirFS := String → Option FsEntry

/-- `Path(env_name).mkdir()`. -/
def mkdir (fs : DirFS) (name : String) : DirFS :=
  fun q => if q = name then some .directory else fs q

/-- The failures `add()` can raise, with the data each message names. -/
inductive AddError where
  /-- `BackendWithoutPresetsError` (abc.py lines 245-246). -/
  | backendWithoutPresets (backend : String)
  /-- `InvalidPresetForBackendError` (abc.py lines 252-254). -/
  | invalidPreset (backend : String) (preset : String) (presets : List String)
  /-- `FileExistsError` (abc.py lines 259-265), naming the entry kind and
  the entry. -/
  | fileExists (kind : String) (env_name : String)
deriving DecidableEq

deriving instance DecidableEq for Except

/-- Whether an `AddError` is one of the two preset errors. -/
def AddError.isPresetError : AddError → Bool
  | .backendWithoutPresets _ => true
  | .invalidPreset _ _ _ => true
  | .fileExists _ _ => false

/-- Python truthiness of the `PRESETS` class attribute (`if self.PRESETS:`):
true exactly for a present, non-empty list. -/
def pyTruthyPresets : Option (List String) → Bool
  | Option.none => false
  | some l => !l.isEmpty

/-- `self.PRESETS[0]`. -/
def firstPreset : Option (List String) → Option String
  | some (p :: _) => some p
  | _ => Option.none

/-- The observable outcome of `AbstractExporter.add`: the configuration's
preset after the call (the in-place mutation at abc.py line 250 persists
even when a later check raises), the resulting filesystem, and either the
raised error or success (success then delegates to the abstract `_add`
hook, which is outside this module). -/
structure AddResult where
  preset : Option String
  fs : DirFS
  outcome : Except AddError Unit

/-- The preset after the defaulting step of abc.py lines 248-250: when
`PRESETS` is truthy and the config preset is `None`, it becomes
`PRESETS[0]`; otherwise it is left as is. -/
def resolvePreset (PRESETS : Option (List String))
    (cfg_preset : Option String) : Option String :=
  if pyTruthyPresets PRESETS ∧ cfg_preset = Option.none then firstPreset PRESETS
  else cfg_preset

/-- `AbstractExporter.add` (abc.py lines 240-269): the
backend-without-presets guard (`PRESETS is None` and a truthy preset), the
preset defaulting and membership check when `PRESETS` is truthy, the
existence check on the `env_name` path (reporting `'file'` or
`'directory'`), and finally `mkdir`. -/
def add (PRESETS : Option (List String)) (backend : String)
    (cfg_preset : Option String) (env_name : String) (fs : DirFS) : AddResult :=
  if PRESETS = Option.none ∧ pyTruthyOptStr cfg_preset then
    ⟨cfg_preset, fs, .error (.backendWithoutPresets backend)⟩
  else if pyTruthyPresets PRESETS ∧
      ¬ (PRESETS.getD []).contains ((resolvePreset PRESETS cfg_preset).getD "") then
    ⟨resolvePreset PRESETS cfg_preset, fs,
      .error (.invalidPreset backend ((resolvePreset PRESETS cfg_preset).getD "")
        (PRESETS.getD []))⟩
  else
    match fs env_name with
    | some entry =>
      ⟨resolvePreset PRESETS cfg_preset, fs,
        .error (.fileExists (if entry = .file then "file" else "directory") env_name)⟩
    | Option.none => ⟨resolvePreset PRESETS cfg_preset, mkdir fs env_name, .ok ()⟩

/-! ## Observations used by the claim statements -/

/-- Whether a load outcome is the type-mismatch failure of abc.py
lines 52-54. -/
def isTypeMismatch : Except LoadError AbstractDockerConfig → Bool
  | .error (.typeMismatch _ _) => true
  | _ => false

/-- Modelled from the spec: whether the document text stores the section
named `env` as a block mapping (a bare `env:` header line followed by
indented entries) rather than as an inline scalar (`env: 5`). -/
def sectionHasBlockMappingValue (t : Text) (env : String) : Bool :=
  (splitLines t).contains (env.data ++ [':'])

/-- A two-document filesystem exhibiting the dropped path argument of
abc.py line 49: the document at `a.yaml` stores its `prod` section as a
mapping, the one at `b.yaml` as the scalar `5`. -/
def fsC3 : CFS := fun p =>
  if p = "a.yaml" then some "prod:\n  backend: docker-compose\n".data
  else if p = "b.yaml" then some "prod: 5\n".data
  else Option.none

/-- Whether a YAML value is a string scalar. -/
def isStrVal : YVal → Bool
  | .str _ => true
  | _ => false

/-- Whether a YAML value is acceptable for an `Optional[str]` field. -/
def isOptStr : YVal → Bool
  | .str _ => true
  | .null => true
  | _ => false

/-- Whether a YAML value is acceptable for an `Optional[List[str]]`
field. -/
def isOptStrList : YVal → Bool
  | .list xs => xs.all isStrVal
  | .null => true
  | _ => false

/-- Whether a YAML value is well typed for the named
`AbstractDockerConfig` field. -/
def fieldWellTyped : String → YVal → Bool
  | "preset", v => isOptStr v
  | "repository", v => isOptStr v
  | "include", v => isOptStrList v
  | "exclude", v => isOptStrList v
  | _, _ => true

/-- Both preset guards of `add()` pass: the backend-without-presets guard
does not fire, and (when `PRESETS` is truthy) the preset resolved by the
defaulting step is a member of the declared list. -/
def preset_checks_pass (PRESETS : Option (List String))
    (cfg_preset : Option String) : Prop :=
  ¬(PRESETS = Option.none ∧ pyTruthyOptStr cfg_preset) ∧
  ¬(pyTruthyPresets PRESETS ∧
    ¬(PRESETS.getD []).contains ((resolvePreset PRESETS cfg_preset).getD ""))

/-! ## Well-formedness predicates used by the bootstrap theorems -/

/-- A string free of newline characters (serializes to a single line). -/
def cleanStr (s : String) : Bool := !s.data.contains '\n'

/-- A dict whose keys and values are newline-free. -/
def cleanDict (d : PyDict) : Bool :=
  d.all (fun kv => cleanStr kv.1 && cleanStr kv.2)

/-- An absent or newline-free preset argument. -/
def cleanPreset : Option String → Bool
  | Option.none => true
  | some p => cleanStr p

/-- A plain YAML-scalar environment name: nonempty, free of newlines and
colons, not starting with a space or a comment marker. -/
def envOk (env : String) : Bool :=
  !env.data.contains '\n' && !env.data.contains ':' &&
    (match env.data with
     | [] => false
     | c :: _ => c != ' ' && c != '#')

/-! ## Helper lemmas: line splitting -/

theorem splitLines_ne_nil (t : Text) : splitLines t ≠ [] := by
  match t with
  | [] => simp [splitLines]
  | c :: rest =>
    simp only [splitLines]
    by_cases hc : c = '\n'
    · simp [hc]
    · rw [if_neg hc]
      cases h : splitLines rest <;> simp

theorem splitLines_append (a b : Text) :
    splitLines (a ++ '\n' :: b) = splitLines a ++ splitLines b := by
  induction a with
  | nil => simp [splitLines]
  | cons c a ih =>
    by_cases hc : c = '\n'
    · subst hc
      have h1 : splitLines ('\n' :: (a ++ '\n' :: b)) = [] :: splitLines (a ++ '\n' :: b) := by
        simp [splitLines]
      have h2 : splitLines ('\n' :: a) = [] :: splitLines a := by
        simp [splitLines]
      calc splitLines (('\n' :: a) ++ '\n' :: b)
          = [] :: splitLines (a ++ '\n' :: b) := h1
        _ = [] :: (splitLines a ++ splitLines b) := by rw [ih]
        _ = splitLines ('\n' :: a) ++ splitLines b := by rw [h2]; rfl
    · cases h : splitLines a with
      | nil => exact absurd h (splitLines_ne_nil a)
      | cons l ls =>
        have h1 : splitLines ((c :: a) ++ '\n' :: b) = (c :: l) :: (ls ++ splitLines b) := by
          show splitLines (c :: (a ++ '\n' :: b)) = _
          simp only [splitLines, if_neg hc, ih, h, List.cons_append]
        have h2 : splitLines (c :: a) = (c :: l) :: ls := by
          simp only [splitLines, if_neg hc, h]
        rw [h1, h2, List.cons_append]

theorem splitLines_of_not_mem (a : Text) (h : '\n' ∉ a) : splitLines a = [a] := by
  induction a with
  | nil => simp [splitLines]
  | cons c a ih =>
    have hc : c ≠ '\n' := fun hc => h (hc ▸ List.mem_cons_self c a)
    have ha : '\n' ∉ a := fun hm => h (List.mem_cons_of_mem c hm)
    simp only [splitLines, if_neg hc, ih ha]

theorem splitLines_joinLines_append (ls : List Text) (r : Text)
    (h : ∀ l ∈ ls, '\n' ∉ l) :
    splitLines (joinLines ls ++ r) = ls ++ splitLines r := by
  induction ls with
  | nil => simp [joinLines]
  | cons l ls ih =>
    have hl : '\n' ∉ l := h l (List.mem_cons_self l ls)
    have hls : ∀ l' ∈ ls, '\n' ∉ l' := fun l' hm => h l' (List.mem_cons_of_mem l hm)
    have : joinLines (l :: ls) ++ r = l ++ '\n' :: (joinLines ls ++ r) := by
      simp [joinLines]
    rw [this, splitLines_append, splitLines_of_not_mem l hl, ih hls]
    simp

theorem splitLines_joinLines (ls : List Text) (h : ∀ l ∈ ls, '\n' ∉ l) :
    splitLines (joinLines ls) = ls ++ [[]] := by
  have := splitLines_joinLines_append ls [] h
  simpa [splitLines] using this

theorem takeWhile_append_of_all {p : Char → Bool} (a b : Text)
    (h : ∀ x ∈ a, p x = true) :
    (a ++ b).takeWhile p = a ++ b.takeWhile p := by
  induction a with
  | nil => simp
  | cons c a ih =>
    have hc : p c = true := h c (List.mem_cons_self c a)
    have ha : ∀ x ∈ a, p x = true := fun x hm => h x (List.mem_cons_of_mem c hm)
    simp [List.takeWhile_cons, hc, ih ha]

/-! ## Helper lemmas: Python dicts -/

theorem mem_of_lookup_eq_some {α β : Type} [BEq α] [LawfulBEq α]
    {l : List (α × β)} {k : α} {v : β}
    (h : l.lookup k = some v) : (k, v) ∈ l := by
  induction l with
  | nil => simp [List.lookup] at h
  | cons kv l ih =>
    match kv with
    | (k', v') =>
      rw [List.lookup_cons] at h
      by_cases hk : k = k'
      · subst hk
        simp at h
        subst h
        exact List.mem_cons_self _ _
      · have : (k == k') = false := beq_false_of_ne hk
        rw [this] at h
        exact List.mem_cons_of_mem _ (ih h)

theorem lookup_append {α β : Type} [BEq α] (a b : List (α × β)) (k : α) :
    (a ++ b).lookup k = ((a.lookup k).or (b.lookup k)) := by
  induction a with
  | nil => simp [List.lookup]
  | cons kv a ih =>
    match kv with
    | (k', v') =>
      rw [List.cons_append, List.lookup_cons, List.lookup_cons]
      cases hk : k == k'
      · simp only [hk]
        exact ih
      · simp [hk]

theorem lookup_map_override (a b : PyDict) (k : String) :
    (a.map (fun kv =>
      match b.lookup kv.1 with
      | some v => (kv.1, v)
      | Option.none => kv)).lookup k
      = (a.lookup k).map (fun v => (b.lookup k).getD v) := by
  induction a with
  | nil => simp [List.lookup]
  | cons kv a ih =>
    match kv with
    | (k', v') =>
      by_cases hk : k = k'
      · subst hk
        cases hb : b.lookup k <;>
          simp [List.lookup_cons, hb]
      · have hbeq : (k == k') = false := beq_false_of_ne hk
        cases hb : b.lookup k' <;>
          simp only [List.map_cons, hb, List.lookup_cons, hbeq, ih]

theorem lookup_filter_keyless (a b : PyDict) (k : String)
    (h : a.lookup k = Option.none) :
    (b.filter (fun kv => (a.lookup kv.1).isNone)).lookup k = b.lookup k := by
  induction b with
  | nil => simp
  | cons kv b ih =>
    match kv with
    | (k', v') =>
      by_cases hk : k = k'
      · subst hk
        simp [List.filter_cons, h, List.lookup_cons]
      · have hbeq : (k == k') = false := beq_false_of_ne hk
        cases hf : (a.lookup k').isNone <;>
          simp [List.filter_cons, hf, List.lookup_cons, hbeq, ih]

theorem lookup_filter_keyed (a b : PyDict) (k : String)
    (h : (a.lookup k).isSome) :
    (b.filter (fun kv => (a.lookup kv.1).isNone)).lookup k = Option.none := by
  induction b with
  | nil => simp
  | cons kv b ih =>
    match kv with
    | (k', v') =>
      by_cases hk : k = k'
      · subst hk
        have : (a.lookup k).isNone = false := by
          cases ha : a.lookup k
          · rw [ha] at h; simp at h
          · simp
        simp [List.filter_cons, this, ih]
      · have hbeq : (k == k') = false := beq_false_of_ne hk
        cases hf : (a.lookup k').isNone <;>
          simp [List.filter_cons, hf, List.lookup_cons, hbeq, ih]

theorem lookup_pyMerge (a b : PyDict) (k : String) :
    (pyMerge a b).lookup k = ((b.lookup k).or (a.lookup k)) := by
  rw [pyMerge, lookup_append, lookup_map_override]
  cases ha : a.lookup k with
  | none =>
    rw [lookup_filter_keyless a b k ha]
    cases hb : b.lookup k <;> simp
  | some v =>
    rw [lookup_filter_keyed a b k (by simp [ha])]
    cases hb : b.lookup k <;> simp [hb]

theorem lookup_dictSet_self (d : PyDict) (k v : String) :
    (dictSet d k v).lookup k = some v := by
  rw [dictSet]
  cases hs : (d.lookup k).isSome
  · rw [if_neg (by simp [hs])]
    rw [lookup_append]
    have : d.lookup k = Option.none := by
      cases h : d.lookup k
      · rfl
      · rw [h] at hs; simp at hs
    simp [this, List.lookup]
  · rw [if_pos (by simp [hs])]
    induction d with
    | nil => simp [List.lookup] at hs
    | cons kv d ih =>
      match kv with
      | (k', v') =>
        by_cases hk : k' = k
        · subst hk
          simp [List.lookup_cons]
        · have hbeq : (k == k') = false := beq_false_of_ne (Ne.symm hk)
          rw [List.lookup_cons] at hs
          rw [hbeq] at hs
          simp only [List.map_cons, if_neg hk, List.lookup_cons, hbeq]
          exact ih hs

/-! ## Helper lemmas: cleanliness is preserved by the dict operations -/

theorem cleanDict_dictSet {d : PyDict} {k v : String}
    (hd : cleanDict d = true) (hk : cleanStr k = true) (hv : cleanStr v = true) :
    cleanDict (dictSet d k v) = true := by
  rw [cleanDict, List.all_eq_true] at hd ⊢
  intro kv hm
  rw [dictSet] at hm
  by_cases hs : (d.lookup k).isSome
  · rw [if_pos hs] at hm
    obtain ⟨kv', hm', heq⟩ := List.mem_map.mp hm
    by_cases hk' : kv'.1 = k
    · rw [if_pos hk'] at heq
      subst heq
      simp [hk, hv]
    · rw [if_neg hk'] at heq
      subst heq
      exact hd kv' hm'
  · rw [if_neg hs] at hm
    rcases List.mem_append.mp hm with hm' | hm'
    · exact hd kv hm'
    · simp at hm'
      subst hm'
      simp [hk, hv]

theorem cleanDict_pyMerge {a b : PyDict}
    (ha : cleanDict a = true) (hb : cleanDict b = true) :
    cleanDict (pyMerge a b) = true := by
  rw [cleanDict, List.all_eq_true] at ha hb ⊢
  intro kv hm
  rw [pyMerge] at hm
  rcases List.mem_append.mp hm with hm' | hm'
  · obtain ⟨kv', hmem, heq⟩ := List.mem_map.mp hm'
    cases hl : b.lookup kv'.1 with
    | none =>
      rw [hl] at heq
      subst heq
      exact ha kv' hmem
    | some w =>
      rw [hl] at heq
      subst heq
      have h1 := ha kv' hmem
      have h2 := hb _ (mem_of_lookup_eq_some hl)
      simp only [Bool.and_eq_true] at h1 h2 ⊢
      exact ⟨h1.1, h2.2⟩
  · exact hb kv (List.mem_filter.mp hm').1

theorem cleanDict_build_section_data {hintsRaw defaults : PyDict}
    {backendValue : String} {preset : Option String}
    (hh : cleanDict hintsRaw = true) (hd : cleanDict defaults = true)
    (hb : cleanStr backendValue = true) (hp : cleanPreset preset = true) :
    cleanDict (build_section_data hintsRaw backendValue defaults preset) = true := by
  have hm : cleanDict (hints_with_overrides hintsRaw backendValue defaults) = true := by
    apply cleanDict_pyMerge _ hd
    exact cleanDict_dictSet hh (by decide) hb
  simp only [build_section_data]
  by_cases ht : pyTruthyOptStr preset = true
  · rw [if_pos ht]
    apply cleanDict_dictSet hm (by decide)
    match preset, hp, ht with
    | some p, hp, _ => exact hp
  · rw [if_neg ht]
    exact hm

/-! ## Helper lemmas: the serialized section block -/

theorem envOk_spec (env : String) (h : envOk env = true) :
    '\n' ∉ env.data ∧ ':' ∉ env.data ∧
      ∃ c rest, env.data = c :: rest ∧ c ≠ ' ' ∧ c ≠ '#' := by
  rw [envOk] at h
  cases henv : env.data with
  | nil => rw [henv] at h; simp at h
  | cons c rest =>
    rw [henv] at h
    simp only [Bool.and_eq_true, bne_iff_ne] at h
    refine ⟨?_, ?_, c, rest, rfl, h.2.1, h.2.2⟩
    · simpa using h.1.1
    · simpa using h.1.2

theorem cleanDict_spec {d : PyDict} (h : cleanDict d = true) :
    ∀ kv ∈ d, '\n' ∉ kv.1.data ∧ '\n' ∉ kv.2.data := by
  rw [cleanDict, List.all_eq_true] at h
  intro kv hm
  have := h kv hm
  rw [Bool.and_eq_true, cleanStr, cleanStr] at this
  constructor
  · simpa using this.1
  · simpa using this.2

theorem dumpLines_no_newline (env : String) (data : PyDict)
    (henv : envOk env = true) (hdata : cleanDict data = true) :
    ∀ l ∈ dumpLines env data, '\n' ∉ l := by
  obtain ⟨hnl, -, -⟩ := envOk_spec env henv
  intro l hl
  rw [dumpLines] at hl
  rcases List.mem_cons.mp hl with hl | hl
  · subst hl
    intro hmem
    rcases List.mem_append.mp hmem with hmem | hmem
    · exact hnl hmem
    · simp at hmem
  · obtain ⟨kv, hkv, heq⟩ := List.mem_map.mp hl
    obtain ⟨hk, hv⟩ := cleanDict_spec hdata kv hkv
    subst heq
    intro hmem
    simp only [List.mem_cons, List.mem_append] at hmem
    rcases hmem with h1 | h1 | h1 | h1 | h1 | h1
    · exact absurd h1 (by decide)
    · exact absurd h1 (by decide)
    · exact hk h1
    · exact absurd h1 (by decide)
    · exact absurd h1 (by decide)
    · exact hv h1

theorem isSectionLine_header (env : String) (henv : envOk env = true) :
    isSectionLine (env.data ++ [':']) = true := by
  obtain ⟨-, -, c, rest, heq, hsp, hhash⟩ := envOk_spec env henv
  rw [heq, List.cons_append, isSectionLine]
  simp [hsp, hhash]

theorem isSectionLine_body (l : Text) : isSectionLine (' ' :: ' ' :: l) = false := by
  rfl

theorem sectionKeyOfLine_header (env : String) (henv : envOk env = true) :
    sectionKeyOfLine (env.data ++ [':']) = env.data := by
  obtain ⟨-, hcolon, -⟩ := envOk_spec env henv
  rw [sectionKeyOfLine, takeWhile_append_of_all]
  · simp [List.takeWhile_cons]
  · intro x hx
    exact decide_eq_true (fun hc => hcolon (hc ▸ hx))

theorem filter_dumpLines (env : String) (data : PyDict)
    (henv : envOk env = true) :
    (dumpLines env data).filter isSectionLine = [env.data ++ [':']] := by
  rw [dumpLines, List.filter_cons, isSectionLine_header env henv]
  simp only [if_pos]
  have : (data.map fun kv =>
      ' ' :: ' ' :: (kv.1.data ++ ':' :: ' ' :: kv.2.data)).filter isSectionLine = [] := by
    rw [List.filter_eq_nil_iff]
    intro l hl
    obtain ⟨kv, hkv, heq⟩ := List.mem_map.mp hl
    subst heq
    rw [isSectionLine_body]
    simp
  rw [this]

theorem topLevelKeys_dump (env : String) (data : PyDict)
    (henv : envOk env = true) (hdata : cleanDict data = true) :
    topLevelKeys (safe_dump_section env data) = [env.data] := by
  rw [topLevelKeys, safe_dump_section,
    splitLines_joinLines _ (dumpLines_no_newline env data henv hdata),
    List.filter_append, filter_dumpLines env data henv]
  have : ([([] : Text)]).filter isSectionLine = [] := by rfl
  rw [this, List.append_nil, List.map_cons, List.map_nil,
    sectionKeyOfLine_header env henv]

theorem topLevelKeys_append_dump (content : Text) (env : String) (data : PyDict)
    (henv : envOk env = true) (hdata : cleanDict data = true) :
    topLevelKeys (content ++ '\n' :: (safe_dump_section env data ++ ['\n']))
      = topLevelKeys content ++ [env.data] := by
  rw [topLevelKeys, splitLines_append, safe_dump_section,
    splitLines_joinLines_append _ _ (dumpLines_no_newline env data henv hdata)]
  have hsplit : splitLines ['\n'] = [[], []] := by rfl
  rw [hsplit, List.filter_append, List.filter_append, filter_dumpLines env data henv]
  have : ([([] : Text), []]).filter isSectionLine = [] := by rfl
  rw [this, List.append_nil, List.map_append, List.map_cons, List.map_nil,
    sectionKeyOfLine_header env henv]
  rfl

/-! ## Helper lemmas: the bootstrap write -/

theorem fsWrite_self (fs : CFS) (p : String) (t : Text) : fsWrite fs p t p = some t := by
  simp [fsWrite]

theorem fsWrite_other (fs : CFS) (p : String) (t : Text) (q : String) (h : q ≠ p) :
    fsWrite fs p t q = fs q := by
  simp [fsWrite, h]

theorem docSections_of_eq_some {fs : CFS} {p : String} {t : Text}
    (h : fs p = some t) : docSections fs p = topLevelKeys t := by
  rw [docSections, h]

theorem docSections_of_eq_none {fs : CFS} {p : String}
    (h : fs p = Option.none) : docSections fs p = [] := by
  rw [docSections, h]

theorem write_hints_if_needed_noop (fs : CFS) (path_to_config env_name : String)
    (preset : Option String) (hintsRaw : PyDict) (backendValue : String)
    (defaults : PyDict) (h : env_name.data ∈ docSections fs path_to_config) :
    write_hints_if_needed fs path_to_config env_name preset hintsRaw backendValue defaults
      = fs := by
  rw [write_hints_if_needed]
  cases hfs : fs path_to_config with
  | none => rw [docSections, hfs] at h; simp at h
  | some content =>
    rw [docSections, hfs] at h
    simp only [hfs]
    rw [if_pos h]

theorem docSections_write_hints (fs : CFS) (path_to_config env_name : String)
    (preset : Option String) (hintsRaw : PyDict) (backendValue : String)
    (defaults : PyDict)
    (henv : envOk env_name = true)
    (hdata : cleanDict (build_section_data hintsRaw backendValue defaults preset) = true)
    (habsent : env_name.data ∉ docSections fs path_to_config) :
    docSections
        (write_hints_if_needed fs path_to_config env_name preset hintsRaw backendValue defaults)
        path_to_config
      = docSections fs path_to_config ++ [env_name.data] := by
  cases hfs : fs path_to_config with
  | none =>
    have h1 : write_hints_if_needed fs path_to_config env_name preset hintsRaw
        backendValue defaults
        = fsWrite fs path_to_config
            (safe_dump_section env_name
              (build_section_data hintsRaw backendValue defaults preset)) := by
      rw [write_hints_if_needed]
      simp only [hfs]
    rw [h1, docSections_of_eq_some (fsWrite_self _ _ _),
      topLevelKeys_dump env_name _ henv hdata, docSections_of_eq_none hfs]
    rfl
  | some content =>
    have habsent' : env_name.data ∉ topLevelKeys content := by
      rw [docSections_of_eq_some hfs] at habsent
      exact habsent
    have h1 : write_hints_if_needed fs path_to_config env_name preset hintsRaw
        backendValue defaults
        = fsWrite fs path_to_config (content ++ '\n' ::
            (safe_dump_section env_name
              (build_section_data hintsRaw backendValue defaults preset) ++ ['\n'])) := by
      rw [write_hints_if_needed]
      simp only [hfs]
      rw [if_neg habsent']
    rw [h1, docSections_of_eq_some (fsWrite_self _ _ _),
      topLevelKeys_append_dump content env_name _ henv hdata,
      docSections_of_eq_some hfs]

/-! # Claim theorems -/

/-- Claim C1: for every config-file path and environment name (a plain
newline- and colon-free YAML scalar, with newline-free hint data), calling
`load_env_from_config` twice in succession for an environment name not yet
present in the document yields a document containing exactly one top-level
section for that name, and the second call does not modify the file: the
bootstrap write is idempotent. -/
theorem claim_C1 (read_no_arg : CFS → Except String YDoc) (fs : CFS)
    (path_to_config env_name : String) (preset : Option String)
    (hintsRaw : PyDict) (backendValue : String) (defaults : PyDict)
    (henv : envOk env_name = true)
    (hh : cleanDict hintsRaw = true) (hd : cleanDict defaults = true)
    (hb : cleanStr backendValue = true) (hp : cleanPreset preset = true)
    (habsent : env_name.data ∉ docSections fs path_to_config) :
    ((docSections
        (load_env_from_config read_no_arg fs path_to_config env_name preset
          hintsRaw backendValue defaults).1
        path_to_config).count env_name.data = 1)
    ∧ (load_env_from_config read_no_arg
        (load_env_from_config read_no_arg fs path_to_config env_name preset
          hintsRaw backendValue defaults).1
        path_to_config env_name preset hintsRaw backendValue defaults).1
      = (load_env_from_config read_no_arg fs path_to_config env_name preset
          hintsRaw backendValue defaults).1 := by
  have hdata := cleanDict_build_section_data hh hd hb hp
  have hfst :
      (load_env_from_config read_no_arg fs path_to_config env_name preset
        hintsRaw backendValue defaults).1
        = write_hints_if_needed fs path_to_config env_name preset hintsRaw
            backendValue defaults := rfl
  have hsec := docSections_write_hints fs path_to_config env_name preset hintsRaw
    backendValue defaults henv hdata habsent
  have hmem : env_name.data ∈ docSections
      (write_hints_if_needed fs path_to_config env_name preset hintsRaw
        backendValue defaults) path_to_config := by
    rw [hsec]
    exact List.mem_append_right _ (List.mem_singleton.mpr rfl)
  constructor
  · rw [hfst, hsec, List.count_append, List.count_eq_zero.mpr habsent]
    simp
  · rw [hfst]
    exact write_hints_if_needed_noop _ _ _ _ _ _ _ hmem

/-- Claim C1, witnessed at a concrete input: a fresh filesystem, path
`soopervisor.yaml`, environment `prod`, the Docker hint data and backend
`docker-compose`. -/
theorem claim_C1_witness :
    (envOk "prod" = true
      ∧ "prod".data ∉ docSections (fun _ => Option.none) "soopervisor.yaml")
    ∧ (((docSections
        (load_env_from_config (fun _ => Except.error "")
          (fun _ => Option.none) "soopervisor.yaml" "prod" Option.none
          [("repository", "your-repository/name")] "docker-compose" []).1
        "soopervisor.yaml").count "prod".data = 1)
      ∧ (load_env_from_config (fun _ => Except.error "")
          (load_env_from_config (fun _ => Except.error "")
            (fun _ => Option.none) "soopervisor.yaml" "prod" Option.none
            [("repository", "your-repository/name")] "docker-compose" []).1
          "soopervisor.yaml" "prod" Option.none
          [("repository", "your-repository/name")] "docker-compose" []).1
        = (load_env_from_config (fun _ => Except.error "")
            (fun _ => Option.none) "soopervisor.yaml" "prod" Option.none
            [("repository", "your-repository/name")] "docker-compose" []).1) :=
  ⟨⟨by decide, by decide⟩,
    claim_C1 (fun _ => Except.error "") (fun _ => Option.none) "soopervisor.yaml"
      "prod" Option.none [("repository", "your-repository/name")] "docker-compose" []
      (by decide) (by decide) (by decide) (by decide) (by decide) (by decide)⟩

/-- Claim C2: for every existing config document and every environment
name, `load_env_from_config` leaves all pre-existing file content
unchanged: if the named section already exists the file is not written at
all, and if the section is missing the new section block is appended after
the existing text (the existing text is a byte-for-byte prefix of the new
content, so every existing field value, field order and sibling section is
unchanged), and no other path is touched. -/
theorem claim_C2 (read_no_arg : CFS → Except String YDoc) (fs : CFS)
    (path_to_config env_name : String) (preset : Option String)
    (hintsRaw : PyDict) (backendValue : String) (defaults : PyDict)
    (content : Text) (hc : fs path_to_config = some content) :
    (env_name.data ∈ topLevelKeys content →
      (load_env_from_config read_no_arg fs path_to_config env_name preset
        hintsRaw backendValue defaults).1 = fs)
    ∧ (env_name.data ∉ topLevelKeys content →
      ((load_env_from_config read_no_arg fs path_to_config env_name preset
          hintsRaw backendValue defaults).1 path_to_config
        = some (content ++ '\n' ::
            (safe_dump_section env_name
              (build_section_data hintsRaw backendValue defaults preset) ++ ['\n'])))
      ∧ ∀ q, q ≠ path_to_config →
          (load_env_from_config read_no_arg fs path_to_config env_name preset
            hintsRaw backendValue defaults).1 q = fs q) := by
  have hfst :
      (load_env_from_config read_no_arg fs path_to_config env_name preset
        hintsRaw backendValue defaults).1
        = write_hints_if_needed fs path_to_config env_name preset hintsRaw
            backendValue defaults := rfl
  constructor
  · intro hmem
    rw [hfst]
    exact write_hints_if_needed_noop _ _ _ _ _ _ _ (by rw [docSections, hc]; exact hmem)
  · intro habsent
    have hwrite :
        write_hints_if_needed fs path_to_config env_name preset hintsRaw
            backendValue defaults
          = fsWrite fs path_to_config (content ++ '\n' ::
              (safe_dump_section env_name
                (build_section_data hintsRaw backendValue defaults preset) ++ ['\n'])) := by
      rw [write_hints_if_needed]
      simp only [hc]
      rw [if_neg habsent]
    refine ⟨?_, ?_⟩
    · rw [hfst, hwrite, fsWrite_self]
    · intro q hq
      rw [hfst, hwrite, fsWrite_other _ _ _ _ hq]

/-- Claim C2, witnessed at a concrete input: a document holding an `other`
section keeps its exact text as a prefix when a `prod` section is
bootstrapped, and a second document that already holds `prod` is left
untouched. -/
theorem claim_C2_witness :
    ("prod".data ∉ topLevelKeys "other:\n  backend: argo\n".data)
    ∧ ((load_env_from_config (fun _ => Except.error "")
        (fun p => if p = "c.yaml" then some "other:\n  backend: argo\n".data
          else Option.none)
        "c.yaml" "prod" Option.none [("repository", "your-repository/name")]
        "docker-compose" []).1 "c.yaml"
      = some ("other:\n  backend: argo\n".data ++ '\n' ::
          (safe_dump_section "prod"
            (build_section_data [("repository", "your-repository/name")]
              "docker-compose" [] Option.none) ++ ['\n']))) :=
  ⟨by decide,
    ((claim_C2 (fun _ => Except.error "")
      (fun p => if p = "c.yaml" then some "other:\n  backend: argo\n".data
        else Option.none)
      "c.yaml" "prod" Option.none [("repository", "your-repository/name")]
      "docker-compose" [] "other:\n  backend: argo\n".data (by decide)).2
      (by decide)).1⟩

/-- Claim C10: when a new environment section is written, its data is the
hint mapping updated by the caller-supplied overrides: an override value
wins for any key present in both mappings, and the `backend` key injected
by `hints()` is always present in the merged mapping. -/
theorem claim_C10 (hintsRaw : PyDict) (backendValue : String) (defaults : PyDict)
    (k v : String) :
    (defaults.lookup k = some v →
      (hints_with_overrides hintsRaw backendValue defaults).lookup k = some v)
    ∧ ((hints_with_overrides hintsRaw backendValue defaults).lookup "backend").isSome
        = true := by
  constructor
  · intro h
    rw [hints_with_overrides, lookup_pyMerge, h]
    rfl
  · rw [hints_with_overrides, lookup_pyMerge]
    cases hb : defaults.lookup "backend" with
    | none =>
      rw [hints, lookup_dictSet_self]
      rfl
    | some w => rfl

/-- Claim C10, witnessed at a concrete input: the derived `exclude`
override replaces the hint stored under the same key, and `backend` is
present. -/
theorem claim_C10_witness :
    (([("exclude", "[output]")] : PyDict).lookup "exclude" = some "[output]")
    ∧ (hints_with_overrides [("repository", "your-repository/name"), ("exclude", "hint")]
        "docker-compose" [("exclude", "[output]")]).lookup "exclude" = some "[output]"
    ∧ ((hints_with_overrides [("repository", "your-repository/name"), ("exclude", "hint")]
        "docker-compose" [("exclude", "[output]")]).lookup "backend").isSome = true :=
  ⟨by decide,
    (claim_C10 [("repository", "your-repository/name"), ("exclude", "hint")]
      "docker-compose" [("exclude", "[output]")] "exclude" "[output]").1 (by decide),
    (claim_C10 [("repository", "your-repository/name"), ("exclude", "hint")]
      "docker-compose" [("exclude", "[output]")] "exclude" "[output]").2⟩

/-! ## Claim C3: the read after the bootstrap -/

theorem isTypeMismatch_check_path_irrel (r : Except String YDoc)
    (env_name backendValue p q : String) :
    isTypeMismatch (check_and_construct r env_name p backendValue)
      = isTypeMismatch (check_and_construct r env_name q backendValue) := by
  cases r with
  | error e => rfl
  | ok data =>
    cases hl : data.lookup env_name with
    | none => simp only [check_and_construct, hl]
    | some sv =>
      cases sv with
      | str s => simp only [check_and_construct, hl]
      | int n => simp only [check_and_construct, hl]
      | null => simp only [check_and_construct, hl]
      | list xs => simp only [check_and_construct, hl]
      | map entries =>
        cases hb : entries.lookup "backend" with
        | none => simp only [check_and_construct, hl, hb, isTypeMismatch]
        | some actual =>
          cases hq : actual.eqStr backendValue with
          | false => simp only [check_and_construct, hl, hb, hq,
              Bool.false_eq_true, if_false, isTypeMismatch]
          | true =>
            simp only [check_and_construct, hl, hb, hq, if_true]

/-- Claim C3 is refuted by the code: `load_env_from_config` does not
re-read the document at the given path.  The read at abc.py line 49 is
`read_yaml_mapping()` with no path argument, so whatever that call
returns, the type-mismatch outcome of a load is the same for two paths
whose documents differ exactly in whether the `prod` section is a mapping:
`a.yaml` stores `prod` as a block mapping, `b.yaml` stores it as the
scalar `5`, both loads leave the filesystem untouched, and both report the
same type-mismatch verdict, which the claim forbids (it requires a
type-mismatch failure for `b.yaml` and none for `a.yaml`). -/
theorem claim_C3_code_bug (read_no_arg : CFS → Except String YDoc) :
    (sectionHasBlockMappingValue "prod:\n  backend: docker-compose\n".data "prod" = true
      ∧ sectionHasBlockMappingValue "prod: 5\n".data "prod" = false)
    ∧ (load_env_from_config read_no_arg fsC3 "a.yaml" "prod" Option.none
        [("repository", "your-repository/name")] "docker-compose" []).1 = fsC3
    ∧ (load_env_from_config read_no_arg fsC3 "b.yaml" "prod" Option.none
        [("repository", "your-repository/name")] "docker-compose" []).1 = fsC3
    ∧ isTypeMismatch (load_env_from_config read_no_arg fsC3 "a.yaml" "prod" Option.none
        [("repository", "your-repository/name")] "docker-compose" []).2
      = isTypeMismatch (load_env_from_config read_no_arg fsC3 "b.yaml" "prod" Option.none
          [("repository", "your-repository/name")] "docker-compose" []).2 := by
  have ha : write_hints_if_needed fsC3 "a.yaml" "prod" Option.none
      [("repository", "your-repository/name")] "docker-compose" [] = fsC3 :=
    write_hints_if_needed_noop _ _ _ _ _ _ _ (by decide)
  have hb : write_hints_if_needed fsC3 "b.yaml" "prod" Option.none
      [("repository", "your-repository/name")] "docker-compose" [] = fsC3 :=
    write_hints_if_needed_noop _ _ _ _ _ _ _ (by decide)
  refine ⟨⟨by decide, by decide⟩, ha, hb, ?_⟩
  show isTypeMismatch (check_and_construct (read_no_arg
      (write_hints_if_needed fsC3 "a.yaml" "prod" Option.none
        [("repository", "your-repository/name")] "docker-compose" []))
      "prod" "a.yaml" "docker-compose")
    = isTypeMismatch (check_and_construct (read_no_arg
        (write_hints_if_needed fsC3 "b.yaml" "prod" Option.none
          [("repository", "your-repository/name")] "docker-compose" []))
        "prod" "b.yaml" "docker-compose")
  rw [ha, hb]
  exact isTypeMismatch_check_path_irrel (read_no_arg fsC3) "prod" "docker-compose"
    "a.yaml" "b.yaml"

/-! ## Claim C4: the backend gate -/

/-- Claim C4: for every section the read step returns for the environment
name, if its `backend` value differs from the schema's backend identifier
then `load_env_from_config` fails with a backend-mismatch error reporting
the expected and the actual value and constructs no schema instance; and
if the section lacks a `backend` key entirely it fails with an error
naming the environment and the file path. -/
theorem claim_C4 (read_no_arg : CFS → Except String YDoc) (fs : CFS)
    (path_to_config env_name : String) (preset : Option String)
    (hintsRaw : PyDict) (backendValue : String) (defaults : PyDict)
    (data : YDoc) (entries : YDoc)
    (hread : read_no_arg (write_hints_if_needed fs path_to_config env_name preset
        hintsRaw backendValue defaults) = .ok data)
    (hsec : data.lookup env_name = some (.map entries)) :
    (∀ actual, entries.lookup "backend" = some actual →
      actual.eqStr backendValue = false →
      (load_env_from_config read_no_arg fs path_to_config env_name preset
          hintsRaw backendValue defaults).2
        = .error (.backendMismatch env_name path_to_config backendValue actual))
    ∧ (entries.lookup "backend" = Option.none →
      (load_env_from_config read_no_arg fs path_to_config env_name preset
          hintsRaw backendValue defaults).2
        = .error (.missingBackend env_name path_to_config)) := by
  have hsnd : (load_env_from_config read_no_arg fs path_to_config env_name preset
      hintsRaw backendValue defaults).2
      = check_and_construct (read_no_arg
          (write_hints_if_needed fs path_to_config env_name preset hintsRaw
            backendValue defaults)) env_name path_to_config backendValue := rfl
  constructor
  · intro actual hkey hne
    rw [hsnd, hread]
    simp only [check_and_construct, hsec, hkey, hne, Bool.false_eq_true, if_false]
  · intro hkey
    rw [hsnd, hread]
    simp only [check_and_construct, hsec, hkey]

/-- Claim C4, witnessed at a concrete input: a read returning a `prod`
section with `backend: argo` while the schema expects `docker-compose`
yields the backend-mismatch error naming both values. -/
theorem claim_C4_witness :
    ((YVal.str "argo").eqStr "docker-compose" = false)
    ∧ (load_env_from_config
        (fun _ => .ok [("prod", YVal.map [("backend", YVal.str "argo")])])
        (fun _ => Option.none) "soopervisor.yaml" "prod" Option.none
        [("repository", "your-repository/name")] "docker-compose" []).2
      = .error (.backendMismatch "prod" "soopervisor.yaml" "docker-compose"
          (YVal.str "argo")) :=
  ⟨rfl,
    (claim_C4 (fun _ => .ok [("prod", YVal.map [("backend", YVal.str "argo")])])
      (fun _ => Option.none) "soopervisor.yaml" "prod" Option.none
      [("repository", "your-repository/name")] "docker-compose" []
      [("prod", YVal.map [("backend", YVal.str "argo")])]
      [("backend", YVal.str "argo")] rfl rfl).1 (YVal.str "argo") rfl rfl⟩

/-! ## Claim C5: strict schema construction -/

theorem coerceStrList_ok (field : String) (xs : List YVal)
    (h : xs.all isStrVal = true) :
    ∃ ss, coerceStrList field xs = .ok ss := by
  induction xs with
  | nil => exact ⟨[], rfl⟩
  | cons v vs ih =>
    rw [List.all_cons, Bool.and_eq_true] at h
    match v, h.1 with
    | .str s, _ =>
      obtain ⟨ss, hss⟩ := ih h.2
      refine ⟨s :: ss, ?_⟩
      rw [coerceStrList, hss]
      rfl

theorem coerceStrOpt_ok (field : String) (o : Option YVal)
    (h : ∀ v, o = some v → isOptStr v = true) :
    ∃ r, coerceStrOpt field o = .ok r := by
  match o with
  | Option.none => exact ⟨Option.none, rfl⟩
  | some v =>
    have hv := h v rfl
    match v, hv with
    | .str s, _ => exact ⟨some s, rfl⟩
    | .null, _ => exact ⟨Option.none, rfl⟩

theorem coerceStrListOpt_ok (field : String) (o : Option YVal)
    (h : ∀ v, o = some v → isOptStrList v = true) :
    ∃ r, coerceStrListOpt field o = .ok r := by
  match o with
  | Option.none => exact ⟨Option.none, rfl⟩
  | some v =>
    have hv := h v rfl
    match v, hv with
    | .null, _ => exact ⟨Option.none, rfl⟩
    | .list xs, hv =>
      obtain ⟨ss, hss⟩ := coerceStrList_ok field xs hv
      refine ⟨some ss, ?_⟩
      rw [coerceStrListOpt, hss]
      rfl

/-- Claim C5: constructing a schema instance from a mapping holding at
least one field name outside the declared field set fails, and
constructing from any mapping whose keys all lie in the declared field set
(all fields optional, each possibly absent) with well-typed values
succeeds. -/
theorem claim_C5 (entries : YDoc) :
    ((∃ kv ∈ entries, kv.1 ∉ dockerFieldNames) →
      ∃ names, mkDockerConfig entries = .error (.extraFields names))
    ∧ ((∀ kv ∈ entries, kv.1 ∈ dockerFieldNames) →
      (∀ kv ∈ entries, fieldWellTyped kv.1 kv.2 = true) →
      ∃ c, mkDockerConfig entries = .ok c) := by
  constructor
  · rintro ⟨kv, hmem, hout⟩
    have hkv : kv ∈ entries.filter (fun kv => !(dockerFieldNames.contains kv.1)) := by
      rw [List.mem_filter]
      exact ⟨hmem, by simpa using hout⟩
    have hne : entries.filter (fun kv => !(dockerFieldNames.contains kv.1)) ≠ [] :=
      List.ne_nil_of_mem hkv
    have hemp : (entries.filter (fun kv => !(dockerFieldNames.contains kv.1))).isEmpty
        = false := by
      rw [List.isEmpty_eq_false_iff_exists_mem]
      exact ⟨kv, hkv⟩
    refine ⟨(entries.filter (fun kv => !(dockerFieldNames.contains kv.1))).map
      (fun kv => kv.1), ?_⟩
    simp only [mkDockerConfig, hemp, Bool.false_eq_true, if_false]
  · intro hsub hwt
    have hemp : (entries.filter (fun kv => !(dockerFieldNames.contains kv.1))).isEmpty
        = true := by
      rw [List.isEmpty_iff, List.filter_eq_nil_iff]
      intro kv hmem
      simp only [Bool.not_eq_true', Bool.not_eq_false]
      simpa using hsub kv hmem
    obtain ⟨p, hp⟩ := coerceStrOpt_ok "preset" (entries.lookup "preset")
      (fun v hv => hwt ("preset", v) (mem_of_lookup_eq_some hv))
    obtain ⟨inc, hinc⟩ := coerceStrListOpt_ok "include" (entries.lookup "include")
      (fun v hv => hwt ("include", v) (mem_of_lookup_eq_some hv))
    obtain ⟨exc, hexc⟩ := coerceStrListOpt_ok "exclude" (entries.lookup "exclude")
      (fun v hv => hwt ("exclude", v) (mem_of_lookup_eq_some hv))
    obtain ⟨repo, hrepo⟩ := coerceStrOpt_ok "repository" (entries.lookup "repository")
      (fun v hv => hwt ("repository", v) (mem_of_lookup_eq_some hv))
    refine ⟨⟨p, inc, exc, repo⟩, ?_⟩
    simp only [mkDockerConfig, hemp, if_true, hp, hinc, hexc, hrepo]

/-- Claim C5, witnessed at a concrete input: a mapping providing only
`repository` and `preset` (with `include` and `exclude` absent)
constructs successfully. -/
theorem claim_C5_witness :
    (∀ kv ∈ ([("repository", YVal.str "repo/name"), ("preset", YVal.str "small")] : YDoc),
      kv.1 ∈ dockerFieldNames)
    ∧ (∀ kv ∈ ([("repository", YVal.str "repo/name"), ("preset", YVal.str "small")] : YDoc),
      fieldWellTyped kv.1 kv.2 = true)
    ∧ ∃ c, mkDockerConfig
        [("repository", YVal.str "repo/name"), ("preset", YVal.str "small")] = .ok c :=
  ⟨(by decide), (by decide),
    (claim_C5 [("repository", YVal.str "repo/name"), ("preset", YVal.str "small")]).2
      (by decide) (by decide)⟩

/-! ## Claims C6 to C9: AbstractExporter.add -/

/-- Claim C6 as stated is false at this input: an exporter declaring
`PRESETS = []` (empty list) with a non-null config preset does not raise
the backend-without-presets error — `add()` runs to completion, because
the guard at abc.py line 245 tests `PRESETS is None` and the block at
line 248 tests truthiness, so an empty list passes both. -/
theorem claim_C6_counterexample :
    (add (some ([] : List String)) "docker-compose" (some "huge") "prod"
      (fun _ => Option.none)).outcome = .ok ()
    ∧ (add (some ([] : List String)) "docker-compose" (some "huge") "prod"
        (fun _ => Option.none)).outcome
      ≠ .error (.backendWithoutPresets "docker-compose") := by
  constructor
  · rfl
  · decide

/-- Claim C6 amended: only an unset `PRESETS` (Python `None`) combined
with a truthy (non-null, non-empty) config preset makes `add()` fail with
the backend-does-not-support-presets error naming the backend; an empty
preset list raises no preset error. -/
theorem claim_C6 (backend : String) (cfg_preset : Option String)
    (env_name : String) (fs : DirFS)
    (h : pyTruthyOptStr cfg_preset = true) :
    (add Option.none backend cfg_preset env_name fs).outcome
      = .error (.backendWithoutPresets backend)
    ∧ (add Option.none backend cfg_preset env_name fs).fs = fs := by
  rw [add, if_pos ⟨rfl, h⟩]
  exact ⟨rfl, rfl⟩

/-- Claim C6 amended, witnessed at a concrete input. -/
theorem claim_C6_witness :
    pyTruthyOptStr (some "small") = true
    ∧ ((add Option.none "docker-compose" (some "small") "prod"
        (fun _ => Option.none)).outcome
      = .error (.backendWithoutPresets "docker-compose")
    ∧ (add Option.none "docker-compose" (some "small") "prod"
        (fun _ => Option.none)).fs = (fun _ => Option.none)) :=
  ⟨by decide,
    claim_C6 "docker-compose" (some "small") "prod" (fun _ => Option.none) (by decide)⟩

/-- Claim C7: for an exporter declaring a non-empty ordered `PRESETS`
list, if the loaded config's preset is unset then `add()` sets it to the
first declared preset (position zero), and if the preset is set but not a
member of the declared list then `add()` fails with an invalid-preset
error naming the backend, the offending value and the valid set. -/
theorem claim_C7 (p0 : String) (ps : List String) (backend : String)
    (cfg_preset : Option String) (env_name : String) (fs : DirFS) :
    (cfg_preset = Option.none →
      (add (some (p0 :: ps)) backend cfg_preset env_name fs).preset = some p0)
    ∧ ∀ pr, cfg_preset = some pr → pr ∉ p0 :: ps →
      (add (some (p0 :: ps)) backend cfg_preset env_name fs).outcome
        = .error (.invalidPreset backend pr (p0 :: ps)) := by
  have htruthy : pyTruthyPresets (some (p0 :: ps)) = true := by
    simp [pyTruthyPresets]
  constructor
  · intro hnone
    subst hnone
    have h1 : ¬((some (p0 :: ps) : Option (List String)) = Option.none
        ∧ pyTruthyOptStr (Option.none : Option String)) := by
      simp [pyTruthyOptStr]
    have hr : resolvePreset (some (p0 :: ps)) Option.none = some p0 := by
      rw [resolvePreset, if_pos ⟨by rw [htruthy], rfl⟩]
      rfl
    have h2 : ¬(pyTruthyPresets (some (p0 :: ps)) ∧
        ¬((some (p0 :: ps)).getD []).contains
          ((resolvePreset (some (p0 :: ps)) Option.none).getD "")) := by
      rw [hr]
      simp
    rw [add, if_neg h1, if_neg h2]
    cases hfe : fs env_name
    · exact hr
    · exact hr
  · intro pr hpr hnot
    subst hpr
    have h1 : ¬((some (p0 :: ps) : Option (List String)) = Option.none
        ∧ pyTruthyOptStr (some pr)) := by
      simp
    have hr : resolvePreset (some (p0 :: ps)) (some pr) = some pr := by
      rw [resolvePreset, if_neg (by simp)]
    have h2 : pyTruthyPresets (some (p0 :: ps)) ∧
        ¬((some (p0 :: ps)).getD []).contains
          ((resolvePreset (some (p0 :: ps)) (some pr)).getD "") := by
      rw [hr]
      exact ⟨by rw [htruthy], by simpa using hnot⟩
    rw [add, if_neg h1, if_pos h2]
    simp [hr]

/-- Claim C7, witnessed at a concrete input: with
`PRESETS = ["small", "large"]`, an unset preset becomes `small`, and the
preset `huge` is rejected naming the valid set. -/
theorem claim_C7_witness :
    (add (some ["small", "large"]) "backend-x" Option.none "prod"
      (fun _ => Option.none)).preset = some "small"
    ∧ (add (some ["small", "large"]) "backend-x" (some "huge") "prod"
        (fun _ => Option.none)).outcome
      = .error (.invalidPreset "backend-x" "huge" ["small", "large"]) :=
  ⟨(claim_C7 "small" ["large"] "backend-x" Option.none "prod"
      (fun _ => Option.none)).1 rfl,
    (claim_C7 "small" ["large"] "backend-x" (some "huge") "prod"
      (fun _ => Option.none)).2 "huge" rfl (by decide)⟩

/-- Claim C8 as stated is false at this input: with an existing file named
`prod` but an exporter whose `PRESETS` is unset while the config carries a
truthy preset, `add()` fails with the backend-without-presets error, not
with the existence error of kind `file` — the preset guards run first. -/
theorem claim_C8_counterexample :
    (add Option.none "docker-compose" (some "small") "prod"
      (fun q => if q = "prod" then some FsEntry.file else Option.none)).outcome
      = .error (.backendWithoutPresets "docker-compose")
    ∧ (add Option.none "docker-compose" (some "small") "prod"
        (fun q => if q = "prod" then some FsEntry.file else Option.none)).outcome
      ≠ .error (.fileExists "file" "prod") := by
  constructor
  · rfl
  · decide

/-- Claim C8 amended: provided both preset guards pass, if a filesystem
entry named exactly `env_name` already exists then `add()` fails with an
existence error reporting kind `file` for a file and kind `directory` for
a directory, creating nothing in either case; and when no such entry
exists `add()` creates a directory named `env_name`. -/
theorem claim_C8 (PRESETS : Option (List String)) (backend : String)
    (cfg_preset : Option String) (env_name : String) (fs : DirFS)
    (hok : preset_checks_pass PRESETS cfg_preset) :
    (fs env_name = some FsEntry.file →
      (add PRESETS backend cfg_preset env_name fs).outcome
        = .error (.fileExists "file" env_name)
      ∧ (add PRESETS backend cfg_preset env_name fs).fs = fs)
    ∧ (fs env_name = some FsEntry.directory →
      (add PRESETS backend cfg_preset env_name fs).outcome
        = .error (.fileExists "directory" env_name)
      ∧ (add PRESETS backend cfg_preset env_name fs).fs = fs)
    ∧ (fs env_name = Option.none →
      (add PRESETS backend cfg_preset env_name fs).fs = mkdir fs env_name
      ∧ (add PRESETS backend cfg_preset env_name fs).outcome = .ok ()) := by
  obtain ⟨h1, h2⟩ := hok
  refine ⟨?_, ?_, ?_⟩
  · intro hf
    rw [add, if_neg h1, if_neg h2, hf]
    exact ⟨rfl, rfl⟩
  · intro hf
    rw [add, if_neg h1, if_neg h2, hf]
    exact ⟨rfl, rfl⟩
  · intro hf
    rw [add, if_neg h1, if_neg h2, hf]
    exact ⟨rfl, rfl⟩

/-- Claim C8 amended, witnessed at a concrete input: an existing file
named `prod` is reported with kind `file` and nothing is created. -/
theorem claim_C8_witness :
    preset_checks_pass Option.none Option.none
    ∧ ((add Option.none "docker-compose" Option.none "prod"
        (fun q => if q = "prod" then some FsEntry.file else Option.none)).outcome
      = .error (.fileExists "file" "prod")
    ∧ (add Option.none "docker-compose" Option.none "prod"
        (fun q => if q = "prod" then some FsEntry.file else Option.none)).fs
      = (fun q => if q = "prod" then some FsEntry.file else Option.none)) :=
  ⟨by constructor <;> simp [pyTruthyOptStr, pyTruthyPresets],
    (claim_C8 Option.none "docker-compose" Option.none "prod"
      (fun q => if q = "prod" then some FsEntry.file else Option.none)
      (by constructor <;> simp [pyTruthyOptStr, pyTruthyPresets])).1 (by decide)⟩

/-- Claim C9: whenever `add()` raises one of the two preset errors, the
filesystem is unchanged — both preset checks run before the existence
check and before the `env_name` directory is created. -/
theorem claim_C9 (PRESETS : Option (List String)) (backend : String)
    (cfg_preset : Option String) (env_name : String) (fs : DirFS) (e : AddError)
    (herr : (add PRESETS backend cfg_preset env_name fs).outcome = .error e)
    (_hpe : e.isPresetError = true) :
    (add PRESETS backend cfg_preset env_name fs).fs = fs := by
  by_cases h1 : PRESETS = Option.none ∧ pyTruthyOptStr cfg_preset
  · rw [add, if_pos h1]
  · by_cases h2 : pyTruthyPresets PRESETS ∧
      ¬(PRESETS.getD []).contains ((resolvePreset PRESETS cfg_preset).getD "")
    · rw [add, if_neg h1, if_pos h2]
    · cases hf : fs env_name with
      | none =>
        exfalso
        rw [add, if_neg h1, if_neg h2, hf] at herr
        simp at herr
      | some entry =>
        rw [add, if_neg h1, if_neg h2, hf]

/-- Claim C9, witnessed at a concrete input: a backend-without-presets
failure leaves the (empty) filesystem untouched. -/
theorem claim_C9_witness :
    ((add Option.none "docker-compose" (some "small") "prod"
        (fun _ => Option.none)).outcome
      = .error (.backendWithoutPresets "docker-compose"))
    ∧ (AddError.backendWithoutPresets "docker-compose").isPresetError = true
    ∧ (add Option.none "docker-compose" (some "small") "prod"
        (fun _ => Option.none)).fs = (fun _ => Option.none) :=
  ⟨rfl, rfl,
    claim_C9 Option.none "docker-compose" (some "small") "prod"
      (fun _ => Option.none) (AddError.backendWithoutPresets "docker-compose")
      rfl rfl⟩

end Soopervisor
